import Mathlib

/-!
Verification of the serial-vault signing-key subsystem against its natural-language
specification.  The Go handlers of the service package (KeypairListHandler,
KeypairCreateHandler, KeypairAssertionHandler, KeypairGenerateHandler,
KeypairStatusHandler, SigningLogHandler) are embedded shallowly as pure Lean
functions over an explicit database state.  External collaborators that the spec
itself excludes (JWT admin authentication, the CheckUserInAccount capability, the
snapd asserts library decoder, base64 decoding, key import) are passed as explicit
arguments, mirroring the spec treating them as opaque capabilities.  Datastore
methods whose implementation is not part of the sources (only their declarations in
the Datastore interface are) are modelled from the spec and say so in their doc
comments.
-/

set_option maxHeartbeats 1000000

namespace SerialVault

/-- A user as far as the handlers use it: only the username is consulted
(checkIsAdminAndGetUserFromJWT is an external collaborator). -/
structure User where
  username : String
deriving Repr, DecidableEq

/-- datastore.Keypair: public metadata of a signing key. -/
structure Keypair where
  id : Int
  authorityID : String
  keyID : String
  sealedKey : String
  assertion : String
  active : Bool
deriving Repr, DecidableEq

/-- datastore.KeypairStatus: generation-tracker row keyed by (authorityID, keyName);
the status is a string in the Go sources. -/
structure KeypairStatus where
  authorityID : String
  keyName : String
  status : String
deriving Repr, DecidableEq

/-- A signing-log entry; the make field is the authority (brand) the entry belongs to. -/
structure SigningLog where
  id : Int
  make : String
  model : String
  serialNumber : String
  fingerprint : String
deriving Repr, DecidableEq

/-- Modelled from the spec, section 3: DeviceNonce = value, expiry deadline, used flag.
The devicenonce table schema is not among the source files. -/
structure DeviceNonce where
  nonce : String
  expiry : Int
  used : Bool
deriving Repr, DecidableEq

/-- The relational store rows the embedded handlers touch. -/
structure DBState where
  keypairs : List Keypair
  keypairStatus : List KeypairStatus
  signingLog : List SigningLog
  nonces : List DeviceNonce
deriving Repr, DecidableEq

/-- A response written through formatBooleanResponse, together with the HTTP status
code set by WriteHeader (200 when no WriteHeader call precedes the write). -/
structure BooleanResponse where
  httpStatus : Nat
  success : Bool
  errorCode : String
  errorSubcode : String
  message : String
deriving Repr, DecidableEq

/-- KeypairWithPrivateKey: the JSON body of create and generate requests. -/
structure KeypairWithPrivateKey where
  id : Int
  authorityID : String
  privateKey : String
  keyName : String
deriving Repr, DecidableEq

/-- AssertionRequest: the JSON body of the assertion-attach request; the assertion
field is base64 text. -/
structure AssertionRequest where
  id : Int
  assertion : String
deriving Repr, DecidableEq

/-- Outcome of reading and JSON-decoding a request body, covering the branches the
handlers distinguish: nil body, io.EOF, a JSON parse error, or a decoded value. -/
inductive BodyResult (α : Type) where
  | noBody
  | eof
  | jsonError (msg : String)
  | ok (value : α)
deriving Repr, DecidableEq

/-- A decoded assertion as the handler consumes it: declared type name and the
HeaderString projection (empty string for a missing header).  The snapd asserts
library that produces it is an external capability. -/
structure Assertion where
  typeName : String
  headers : String → String

/-- asserts.AccountKeyType.Name in the snapd library. -/
def accountKeyTypeName : String := "account-key"

/-- A single-quote wrapper used to build the messages fmt.Sprintf produces with
quoted %s verbs. -/
def sq (s : String) : String :=
  String.singleton (Char.ofNat 39) ++ s ++ String.singleton (Char.ofNat 39)

/-- Whitespace as strings.TrimSpace treats it (the ASCII cases of unicode.IsSpace,
plus NEL and NBSP). -/
def isSpaceChar (c : Char) : Bool :=
  c.toNat = 32 || (9 ≤ c.toNat && c.toNat ≤ 13) || c.toNat = 133 || c.toNat = 160

/-- strings.TrimSpace: drop leading and trailing whitespace. -/
def trimSpace (s : String) : String :=
  String.mk (((s.toList.dropWhile isSpaceChar).reverse.dropWhile isSpaceChar).reverse)

/-- verifyKeypair: shared validation of create and generate requests, in source
order: admin JWT, nil body, EOF, JSON error, TrimSpace on authority-id, empty
authority-id, CheckUserInAccount.  Returns the (trimmed) request on success. -/
def verifyKeypair (authUser : Option User) (body : BodyResult KeypairWithPrivateKey)
    (inAccount : String → String → Bool) :
    Except BooleanResponse (KeypairWithPrivateKey × User) :=
  match authUser with
  | none => .error ⟨200, false, "error-auth", "", ""⟩
  | some user =>
    match body with
    | .noBody => .error ⟨400, false, "error-nil-data", "", "Uninitialized POST data"⟩
    | .eof => .error ⟨400, false, "error-keypair-data", "", "No keypair data supplied"⟩
    | .jsonError msg => .error ⟨400, false, "error-keypair-json", "", msg⟩
    | .ok kp0 =>
      let kp := { kp0 with authorityID := trimSpace kp0.authorityID }
      if kp.authorityID = "" then
        .error ⟨400, false, "error-keypair-json", "", "The authority-id is mandatory"⟩
      else if inAccount user.username kp.authorityID then
        .ok (kp, user)
      else
        .error ⟨400, false, "error-auth", "",
          "Your user does not have permissions for the Signing Authority"⟩

/-- Result of KeypairGenerateHandler: the HTTP response, the database state after
the handler returns (before any background worker runs), and the argument lists of
the goroutines it spawned with go datastore.GenerateKeypair(authorityID, "", keyName). -/
structure GenerateResult where
  response : BooleanResponse
  state : DBState
  spawned : List (String × String × String)
deriving Repr, DecidableEq

/-- KeypairGenerateHandler: verifies the request, then unconditionally spawns the
background GenerateKeypair worker and returns 202 Accepted with the status URL.
The handler itself writes nothing to the database. -/
def KeypairGenerateHandler (authUser : Option User)
    (body : BodyResult KeypairWithPrivateKey)
    (inAccount : String → String → Bool) (st : DBState) : GenerateResult :=
  match verifyKeypair authUser body inAccount with
  | .error resp => ⟨resp, st, []⟩
  | .ok (kp, _) =>
    let statusURL := "/v1/keypairs/status/" ++ kp.authorityID ++ "/" ++ kp.keyName
    ⟨⟨202, true, "", "", statusURL⟩, st, [(kp.authorityID, "", kp.keyName)]⟩

/-- Modelled from the spec, section 4.3: GetStatus(authorityID, keyName) is a
read-only lookup of the tracker row; the SQL body of Datastore.GetKeypairStatus is
declared in src/datastore/database.go but not among the source files. -/
def GetKeypairStatus (st : DBState) (authorityID keyName : String) :
    Option KeypairStatus :=
  st.keypairStatus.find? fun ks =>
    decide (ks.authorityID = authorityID) && decide (ks.keyName = keyName)

/-- KeypairStatusHandler: admin JWT, CheckUserInAccount on the authority, then
GetKeypairStatus; a lookup failure is reported as the error-keypair-json response
with the fixed not-found message. -/
def KeypairStatusHandler (authUser : Option User)
    (inAccount : String → String → Bool)
    (authorityID keyName : String) (st : DBState) : BooleanResponse :=
  match authUser with
  | none => ⟨200, false, "error-auth", "", ""⟩
  | some user =>
    if inAccount user.username authorityID then
      match GetKeypairStatus st authorityID keyName with
      | none => ⟨400, false, "error-keypair-json", "", "Cannot find the status of the keypair"⟩
      | some ks => ⟨200, true, "", "", ks.status⟩
    else
      ⟨400, false, "error-auth", "",
        "Your user does not have permissions for the Signing Authority"⟩

/-- The row update AttachAssertion performs on the matching keypair: overwrite
authorityID, keyID and assertion text from the validated assertion. -/
def updateKeypairRow (kp : Keypair) (k : Keypair) : Keypair :=
  if k.id = kp.id then
    { k with authorityID := kp.authorityID, keyID := kp.keyID, assertion := kp.assertion }
  else k

/-- Modelled from the spec, section 4.2: AttachAssertion enforces that the
assertion's declared authority is one the requester may administer, then sets the
assertion text and overwrites keyID and authorityID on the row; a missing row is a
NotFoundError.  Datastore.UpdateKeypairAssertion is declared in
src/datastore/database.go but its body is not among the source files.  It returns
an error code and either an error message or the updated state, like the Go
(string, error) pair. -/
def UpdateKeypairAssertion (inAccount : String → String → Bool) (st : DBState)
    (kp : Keypair) (authUser : User) : String × Except String DBState :=
  if inAccount authUser.username kp.authorityID then
    if (st.keypairs.find? fun k => decide (k.id = kp.id)).isSome then
      ("", .ok { st with keypairs := st.keypairs.map (updateKeypairRow kp) })
    else
      ("error-keypair-update", .error "Cannot find the keypair")
  else
    ("error-auth", .error "Your user does not have permissions for the Signing Authority")

/-- Result of a handler that may rewrite keypair rows: response plus final state. -/
structure AssertionResult where
  response : BooleanResponse
  state : DBState
deriving Repr, DecidableEq

/-- KeypairAssertionHandler: admin JWT, body checks, keypair-id-zero check, base64
decode, asserts.Decode, account-key type check, then UpdateKeypairAssertion with a
Keypair whose authorityID and keyID come from the account-id and
public-key-sha3-384 headers and whose assertion is the decoded text.  The base64
and asserts decoders are external capabilities passed as functions. -/
def KeypairAssertionHandler (authUser : Option User)
    (body : BodyResult AssertionRequest)
    (b64decode : String → Except String String)
    (assertsDecode : String → Except String Assertion)
    (inAccount : String → String → Bool)
    (st : DBState) : AssertionResult :=
  match authUser with
  | none => ⟨⟨200, false, "error-auth", "", ""⟩, st⟩
  | some user =>
    match body with
    | .noBody => ⟨⟨400, false, "error-nil-data", "", "Uninitialized POST data"⟩, st⟩
    | .eof => ⟨⟨400, false, "error-assertion-data", "", "No assertion data supplied"⟩, st⟩
    | .jsonError msg => ⟨⟨400, false, "error-assertion-json", "", msg⟩, st⟩
    | .ok req =>
      if req.id = 0 then
        ⟨⟨400, false, "invalid-keypair", "", "ID of keypair not provided"⟩, st⟩
      else
        match b64decode req.assertion with
        | .error msg => ⟨⟨400, false, "decode-assertion", "", msg⟩, st⟩
        | .ok decoded =>
          match assertsDecode decoded with
          | .error msg => ⟨⟨400, false, "decode-assertion", "", msg⟩, st⟩
          | .ok a =>
            if a.typeName ≠ accountKeyTypeName then
              ⟨⟨400, false, "invalid-assertion", "",
                "An assertion of type " ++ sq accountKeyTypeName ++ " is required"⟩, st⟩
            else
              let kp : Keypair :=
                ⟨req.id, a.headers "account-id", a.headers "public-key-sha3-384",
                  "", decoded, false⟩
              match UpdateKeypairAssertion inAccount st kp user with
              | (errorCode, .error msg) => ⟨⟨400, false, errorCode, "", msg⟩, st⟩
              | (_, .ok st2) => ⟨⟨200, true, "", "", ""⟩, st2⟩

/-- Modelled from the spec, section 4.2: Put inserts a new row and rejects a
duplicate (authorityID, keyID).  Datastore.PutKeypair is declared in
src/datastore/database.go but its body is not among the source files. -/
def PutKeypair (st : DBState) (kp : Keypair) : String × Except String DBState :=
  if st.keypairs.any fun k =>
      decide (k.authorityID = kp.authorityID) && decide (k.keyID = kp.keyID) then
    ("error-keypair-duplicate", .error "Keypair already exists")
  else
    ("", .ok { st with keypairs := st.keypairs ++ [kp] })

/-- Result of KeypairCreateHandler: response, final state, and the Keypair values
passed to PutKeypair (empty when PutKeypair was never invoked). -/
structure CreateResult where
  response : BooleanResponse
  state : DBState
  putCalls : List Keypair
deriving Repr, DecidableEq

/-- KeypairCreateHandler: verifyKeypair, then ImportSigningKey (an external sealed
key store capability returning the derived public key id and the sealed blob), and
only on import success a PutKeypair of the new row. -/
def KeypairCreateHandler (authUser : Option User)
    (body : BodyResult KeypairWithPrivateKey)
    (inAccount : String → String → Bool)
    (importSigningKey : String → String → Except String (String × String))
    (st : DBState) : CreateResult :=
  match verifyKeypair authUser body inAccount with
  | .error resp => ⟨resp, st, []⟩
  | .ok (kp, _) =>
    match importSigningKey kp.authorityID kp.privateKey with
    | .error msg => ⟨⟨400, false, "error-keypair-store", "", msg⟩, st, []⟩
    | .ok (keyID, sealed) =>
      let keypair : Keypair := ⟨0, kp.authorityID, keyID, sealed, "", false⟩
      match PutKeypair st keypair with
      | (errorCode, .error msg) => ⟨⟨400, false, errorCode, "", msg⟩, st, [keypair]⟩
      | (_, .ok st2) => ⟨⟨200, true, "", "", ""⟩, st2, [keypair]⟩

/-- Modelled from the spec, section 4.2: the listing underlying ListForAuthority
returns the keypairs of authorities the requester may see.
Datastore.ListAllowedKeypairs is declared in src/datastore/database.go but its body
is not among the source files; visibility is the CheckUserInAccount capability. -/
def ListAllowedKeypairs (inAccount : String → String → Bool) (st : DBState)
    (user : User) : List Keypair :=
  st.keypairs.filter fun k => inAccount user.username k.authorityID

/-- The keypair-list JSON response with the list of keypairs. -/
structure KeypairsResponse where
  httpStatus : Nat
  success : Bool
  errorCode : String
  errorSubcode : String
  message : String
  keypairs : List Keypair
deriving Repr, DecidableEq

/-- KeypairListHandler: admin JWT, ListAllowedKeypairs for the user, then the
in-handler filter keeping only rows whose AuthorityID equals the account_code
route variable. -/
def KeypairListHandler (authUser : Option User) (accountCode : String)
    (inAccount : String → String → Bool) (st : DBState) : KeypairsResponse :=
  match authUser with
  | none => ⟨200, false, "error-auth", "", "", []⟩
  | some user =>
    let userKeypairs := ListAllowedKeypairs inAccount st user
    let keypairs := userKeypairs.filter fun k => decide (k.authorityID = accountCode)
    ⟨200, true, "", "", "", keypairs⟩

/-- MaxFromID: the default fromID used by the signing-log handler when no usable
fromID query parameter is present.  The constant itself is defined outside the
source files; its value (the largest 32-bit signed integer in the upstream code) is
immaterial to the claims about it. -/
def MaxFromID : Int := 2147483647

/-- strconv.Atoi as the handler uses it: an optional single plus or minus sign
followed by at least one ASCII digit, with the 64-bit signed integer range check
strconv performs on a 64-bit platform; every other string is an error (none). -/
def goAtoi (s : String) : Option Int :=
  let cs := s.toList
  let signDigits : Bool × List Char :=
    match cs with
    | c :: r =>
      if c = Char.ofNat 45 then (true, r)
      else if c = Char.ofNat 43 then (false, r)
      else (false, cs)
    | [] => (false, [])
  let neg := signDigits.1
  let digits := signDigits.2
  if digits = [] then none
  else if digits.all (fun c => 48 ≤ c.toNat && c.toNat ≤ 57) then
    let m : Int := Int.ofNat (digits.foldl (fun n c => 10 * n + (c.toNat - 48)) 0)
    let n : Int := if neg then -m else m
    if -(2 ^ 63) ≤ n ∧ n ≤ 2 ^ 63 - 1 then some n else none
  else none

/-- The fromID computation at the top of SigningLogHandler: the empty string (what
FormValue returns when the parameter is absent) gives MaxFromID, a string
strconv.Atoi rejects gives MaxFromID, and otherwise the parsed value is used. -/
def signingLogFromID (fromDateParam : String) : Int :=
  if fromDateParam = "" then MaxFromID
  else
    match goAtoi fromDateParam with
    | none => MaxFromID
    | some n => n

/-- Modelled: Datastore.ListSigningLog is what the handler calls, with only fromID
as argument; its body is not among the source files (the Datastore interface in
src/datastore/database.go declares only the user-scoped ListAllowedSigningLog).
Modelled as the entries with id below fromID; note that any function of the state
and fromID alone is necessarily independent of who the requester is. -/
def ListSigningLog (st : DBState) (fromID : Int) : List SigningLog :=
  st.signingLog.filter fun l => decide (l.id < fromID)

/-- The signing-log JSON response with the list of log entries. -/
structure SigningLogResponse where
  httpStatus : Nat
  success : Bool
  errorCode : String
  errorSubcode : String
  message : String
  logs : List SigningLog
deriving Repr, DecidableEq

/-- SigningLogHandler: reads the fromID query parameter (defaulting to MaxFromID as
in signingLogFromID) and returns ListSigningLog of it.  The handler performs no
authentication and passes no user identity to the listing. -/
def SigningLogHandler (fromDateParam : String) (st : DBState) : SigningLogResponse :=
  ⟨200, true, "", "", "", ListSigningLog st (signingLogFromID fromDateParam)⟩

/-- The error outcomes of device-nonce validation named by the spec. -/
inductive NonceError where
  | nonceNotFound
  | nonceExpired
  | nonceAlreadyUsed
deriving Repr, DecidableEq

/-- Lookup of a device nonce row by its value. -/
def findNonce (st : DBState) (value : String) : Option DeviceNonce :=
  st.nonces.find? fun n => decide (n.nonce = value)

/-- Marking a nonce consumed: set the used flag on the row with the given value. -/
def markNonceUsed (value : String) (l : List DeviceNonce) : List DeviceNonce :=
  l.map fun m => if m.nonce = value then { m with used := true } else m

/-- Modelled from the spec, section 4.6: Validate fails with NonceNotFoundError if
the value is unknown, NonceExpiredError if past its time-to-live, and
NonceAlreadyUsedError if previously validated; on success the nonce is consumed
(marked used).  Datastore.ValidateDeviceNonce is declared in
src/datastore/database.go but its body is not among the source files. -/
def ValidateDeviceNonce (st : DBState) (now : Int) (value : String) :
    Except NonceError DBState :=
  match findNonce st value with
  | none => .error .nonceNotFound
  | some n =>
    if n.expiry < now then .error .nonceExpired
    else if n.used then .error .nonceAlreadyUsed
    else .ok { st with nonces := markNonceUsed value st.nonces }

/-- Containment of one character sequence inside another, used to state which type
names a handler error message does and does not mention. -/
def containsSeq (pat : List Char) : List Char → Bool
  | [] => decide (pat = [])
  | c :: rest => List.isPrefixOf pat (c :: rest) || containsSeq pat rest

/-- Marking the matching nonce row as used preserves the lookup, returning the row
with its used flag set. -/
theorem find_markUsed (l : List DeviceNonce) (v : String) (n : DeviceNonce)
    (h : l.find? (fun m => decide (m.nonce = v)) = some n) :
    (markNonceUsed v l).find? (fun m => decide (m.nonce = v))
      = some { n with used := true } := by
  unfold markNonceUsed
  induction l with
  | nil => simp at h
  | cons a l ih =>
    simp only [List.map_cons]
    by_cases ha : a.nonce = v
    · rw [List.find?_cons_of_pos _ (by simp [ha])] at h
      injection h with h
      rw [if_pos ha, List.find?_cons_of_pos _ (by simp [ha]), h]
    · rw [List.find?_cons_of_neg _ (by simp [ha])] at h
      rw [if_neg ha, List.find?_cons_of_neg _ (by simp [ha])]
      exact ih h

/-- C6: on a create-keypair request whose armored private key ImportSigningKey
rejects, the handler answers 400 error-keypair-store with the import error, the
database state is unchanged, and PutKeypair is never invoked. -/
theorem c6_import_failure_no_put (user : User) (kp : KeypairWithPrivateKey)
    (inAccount : String → String → Bool)
    (importSigningKey : String → String → Except String (String × String))
    (st : DBState) (msg : String)
    (h1 : trimSpace kp.authorityID ≠ "")
    (h2 : inAccount user.username (trimSpace kp.authorityID) = true)
    (h3 : importSigningKey (trimSpace kp.authorityID) kp.privateKey = .error msg) :
    KeypairCreateHandler (some user) (.ok kp) inAccount importSigningKey st =
      ⟨⟨400, false, "error-keypair-store", "", msg⟩, st, []⟩ := by
  simp [KeypairCreateHandler, verifyKeypair, h1, h2, h3]

/-- Witness for c6_import_failure_no_put at a concrete malformed-key request. -/
theorem c6_import_failure_no_put_witness :
    KeypairCreateHandler (some ⟨"admin"⟩) (.ok ⟨0, "acme", "not-a-key", ""⟩)
        (fun _ _ => true) (fun _ _ => .error "cannot decode the key")
        ⟨[], [], [], []⟩
      = ⟨⟨400, false, "error-keypair-store", "", "cannot decode the key"⟩,
          ⟨[], [], [], []⟩, []⟩ :=
  c6_import_failure_no_put ⟨"admin"⟩ ⟨0, "acme", "not-a-key", ""⟩ (fun _ _ => true)
    (fun _ _ => .error "cannot decode the key") ⟨[], [], [], []⟩ "cannot decode the key"
    (by decide) rfl rfl

/-- C9: a signing-log list request whose fromID parameter is absent (empty) or not
a parseable integer does not fail: the fromID silently defaults to MaxFromID, the
handler behaves exactly as with an absent parameter, and the response is a
success. -/
theorem c9_from_id_default (s : String) (st : DBState) (h : goAtoi s = none) :
    signingLogFromID "" = MaxFromID ∧
    signingLogFromID s = MaxFromID ∧
    SigningLogHandler s st = SigningLogHandler "" st ∧
    (SigningLogHandler s st).success = true := by
  have h2 : signingLogFromID s = MaxFromID := by
    by_cases hs : s = "" <;> simp [signingLogFromID, hs, h]
  refine ⟨rfl, h2, ?_, rfl⟩
  unfold SigningLogHandler
  rw [h2]
  rfl

/-- Witness for c9_from_id_default at a concrete unparseable fromID. -/
theorem c9_from_id_default_witness :
    signingLogFromID "" = MaxFromID ∧
    signingLogFromID "12monkeys" = MaxFromID ∧
    SigningLogHandler "12monkeys" ⟨[], [], [⟨1, "acme", "m", "s", "f"⟩], []⟩
      = SigningLogHandler "" ⟨[], [], [⟨1, "acme", "m", "s", "f"⟩], []⟩ ∧
    (SigningLogHandler "12monkeys" ⟨[], [], [⟨1, "acme", "m", "s", "f"⟩], []⟩).success
      = true :=
  c9_from_id_default "12monkeys" ⟨[], [], [⟨1, "acme", "m", "s", "f"⟩], []⟩ (by decide)

/-- C10: an attach-assertion request whose body gives the keypair id as 0 (the Go
zero value, hence also the value of an omitted id field) is rejected with the
invalid-keypair error and an unchanged state, and the outcome does not depend on
the base64 or assertion decoders at all: the rejection happens before any
decoding, so a keypair with id 0 can never have an assertion attached. -/
theorem c10_zero_id_rejected_early (user : User) (req : AssertionRequest)
    (b64a b64b : String → Except String String)
    (deca decb : String → Except String Assertion)
    (inAccount : String → String → Bool) (st : DBState)
    (h : req.id = 0) :
    KeypairAssertionHandler (some user) (.ok req) b64a deca inAccount st =
      ⟨⟨400, false, "invalid-keypair", "", "ID of keypair not provided"⟩, st⟩ ∧
    KeypairAssertionHandler (some user) (.ok req) b64a deca inAccount st =
      KeypairAssertionHandler (some user) (.ok req) b64b decb inAccount st := by
  constructor <;> simp [KeypairAssertionHandler, h]

/-- Witness for c10_zero_id_rejected_early at a concrete id-0 request, with two
deliberately different decoders. -/
theorem c10_zero_id_rejected_early_witness :
    KeypairAssertionHandler (some ⟨"admin"⟩) (.ok ⟨0, "Zm9v"⟩)
        (fun _ => .error "bad base64") (fun _ => .error "bad assertion")
        (fun _ _ => true) ⟨[], [], [], []⟩
      = ⟨⟨400, false, "invalid-keypair", "", "ID of keypair not provided"⟩,
          ⟨[], [], [], []⟩⟩ ∧
    KeypairAssertionHandler (some ⟨"admin"⟩) (.ok ⟨0, "Zm9v"⟩)
        (fun _ => .error "bad base64") (fun _ => .error "bad assertion")
        (fun _ _ => true) ⟨[], [], [], []⟩
      = KeypairAssertionHandler (some ⟨"admin"⟩) (.ok ⟨0, "Zm9v"⟩)
          (fun _ => .ok "foo") (fun _ => .ok ⟨"account-key", fun _ => ""⟩)
          (fun _ _ => true) ⟨[], [], [], []⟩ :=
  c10_zero_id_rejected_early ⟨"admin"⟩ ⟨0, "Zm9v"⟩
    (fun _ => .error "bad base64") (fun _ => .ok "foo")
    (fun _ => .error "bad assertion") (fun _ => .ok ⟨"account-key", fun _ => ""⟩)
    (fun _ _ => true) ⟨[], [], [], []⟩ rfl

/-- C8: every keypair returned by the keypair-list handler for an account code is
among the keypairs the requesting user is allowed to see and has that account code
as its AuthorityID. -/
theorem c8_list_scoped_to_account (user : User) (accountCode : String)
    (inAccount : String → String → Bool) (st : DBState) :
    ∀ k ∈ (KeypairListHandler (some user) accountCode inAccount st).keypairs,
      k ∈ ListAllowedKeypairs inAccount st user ∧ k.authorityID = accountCode := by
  intro k hk
  simp only [KeypairListHandler, List.mem_filter, decide_eq_true_eq] at hk
  exact hk

/-- Witness for c8_list_scoped_to_account at a concrete two-authority store. -/
theorem c8_list_scoped_to_account_witness :
    (⟨1, "acme", "k1", "s", "", true⟩ : Keypair) ∈
        ListAllowedKeypairs (fun _ _ => true)
          ⟨[⟨1, "acme", "k1", "s", "", true⟩, ⟨2, "other", "k2", "s", "", true⟩],
            [], [], []⟩ ⟨"admin"⟩ ∧
      (⟨1, "acme", "k1", "s", "", true⟩ : Keypair).authorityID = "acme" :=
  c8_list_scoped_to_account ⟨"admin"⟩ "acme" (fun _ _ => true)
    ⟨[⟨1, "acme", "k1", "s", "", true⟩, ⟨2, "other", "k2", "s", "", true⟩], [], [], []⟩
    ⟨1, "acme", "k1", "s", "", true⟩ (by decide)

/-- C7: device-nonce validation is single-use and time-limited: an unknown value
fails with NonceNotFoundError; a known, unused nonce past its expiry deadline
fails with NonceExpiredError; and after a first successful Validate, a second
Validate of the same value that is still within its time-to-live fails with
NonceAlreadyUsedError. -/
theorem c7_nonce_validation (st : DBState) (v : String) (now1 now2 : Int)
    (st2 : DBState) :
    (findNonce st v = none → ValidateDeviceNonce st now1 v = .error .nonceNotFound) ∧
    (∀ n, findNonce st v = some n → n.used = false → n.expiry < now1 →
      ValidateDeviceNonce st now1 v = .error .nonceExpired) ∧
    (∀ n, findNonce st v = some n → ¬ n.expiry < now2 →
      ValidateDeviceNonce st now1 v = .ok st2 →
      ValidateDeviceNonce st2 now2 v = .error .nonceAlreadyUsed) := by
  refine ⟨?_, ?_, ?_⟩
  · intro h
    simp [ValidateDeviceNonce, h]
  · intro n h hu he
    simp [ValidateDeviceNonce, h, he]
  · intro n h hne hok
    have hval : ValidateDeviceNonce st now1 v
        = (if n.expiry < now1 then .error .nonceExpired
           else if n.used then .error .nonceAlreadyUsed
           else .ok { st with nonces := markNonceUsed v st.nonces }) := by
      unfold ValidateDeviceNonce
      rw [h]
    rw [hval] at hok
    by_cases h1 : n.expiry < now1
    · simp [h1] at hok
    · by_cases h2 : n.used
      · simp [h1, h2] at hok
      · rw [if_neg h1, if_neg h2] at hok
        injection hok with hok
        have hf : findNonce st2 v = some { n with used := true } := by
          rw [← hok]
          exact find_markUsed st.nonces v n h
        simp [ValidateDeviceNonce, hf, hne]

/-- Witness for c7_nonce_validation: a concrete nonce store exercising the
not-found, expired, and already-used outcomes. -/
theorem c7_nonce_validation_witness :
    ValidateDeviceNonce ⟨[], [], [], []⟩ 50 "zzz" = .error .nonceNotFound ∧
    ValidateDeviceNonce ⟨[], [], [], [⟨"abc", 100, false⟩]⟩ 200 "abc"
      = .error .nonceExpired ∧
    ValidateDeviceNonce ⟨[], [], [], [⟨"abc", 100, true⟩]⟩ 60 "abc"
      = .error .nonceAlreadyUsed :=
  ⟨(c7_nonce_validation ⟨[], [], [], []⟩ "zzz" 50 60 ⟨[], [], [], []⟩).1 rfl,
    (c7_nonce_validation ⟨[], [], [], [⟨"abc", 100, false⟩]⟩ "abc" 200 60
        ⟨[], [], [], []⟩).2.1 ⟨"abc", 100, false⟩ rfl rfl (by decide),
    (c7_nonce_validation ⟨[], [], [], [⟨"abc", 100, false⟩]⟩ "abc" 50 60
        ⟨[], [], [], [⟨"abc", 100, true⟩]⟩).2.2 ⟨"abc", 100, false⟩ rfl (by decide) rfl⟩

/-- C4: when a correctly decoded account-key assertion is attached to a keypair,
the stored row's authorityID is the account-id header, its keyID is the
public-key-sha3-384 header, and its assertion field is the decoded assertion
text; and the attach succeeds only when the requester may administer the
assertion's declared authority (otherwise the handler reports error-auth and
leaves the state unchanged). -/
theorem c4_attach_assertion_fields (user : User) (req : AssertionRequest)
    (b64 : String → Except String String) (dec : String → Except String Assertion)
    (inAccount : String → String → Bool) (st : DBState) (decoded : String)
    (a : Assertion)
    (h0 : req.id ≠ 0) (h1 : b64 req.assertion = .ok decoded)
    (h2 : dec decoded = .ok a) (h3 : a.typeName = accountKeyTypeName) :
    (inAccount user.username (a.headers "account-id") = false →
      KeypairAssertionHandler (some user) (.ok req) b64 dec inAccount st =
        ⟨⟨400, false, "error-auth", "",
          "Your user does not have permissions for the Signing Authority"⟩, st⟩) ∧
    (inAccount user.username (a.headers "account-id") = true →
      (st.keypairs.find? fun k => decide (k.id = req.id)).isSome = true →
      (KeypairAssertionHandler (some user) (.ok req) b64 dec inAccount st).response.success
          = true ∧
      ∀ k ∈ (KeypairAssertionHandler (some user) (.ok req) b64 dec
          inAccount st).state.keypairs,
        k.id = req.id →
          k.authorityID = a.headers "account-id" ∧
          k.keyID = a.headers "public-key-sha3-384" ∧
          k.assertion = decoded) := by
  constructor
  · intro hperm
    simp [KeypairAssertionHandler, h0, h1, h2, h3, UpdateKeypairAssertion, hperm]
  · intro hperm hfind
    have hred : KeypairAssertionHandler (some user) (.ok req) b64 dec inAccount st
        = ⟨⟨200, true, "", "", ""⟩,
            { st with keypairs := st.keypairs.map (updateKeypairRow
                ⟨req.id, a.headers "account-id", a.headers "public-key-sha3-384",
                  "", decoded, false⟩) }⟩ := by
      simp [KeypairAssertionHandler, h0, h1, h2, h3, UpdateKeypairAssertion,
        hperm, hfind]
    rw [hred]
    refine ⟨rfl, ?_⟩
    intro k hk hid
    simp only [List.mem_map] at hk
    obtain ⟨k0, hk0, hkeq⟩ := hk
    unfold updateKeypairRow at hkeq
    by_cases hsame : k0.id = req.id
    · rw [if_pos hsame] at hkeq
      rw [← hkeq]
      exact ⟨rfl, rfl, rfl⟩
    · rw [if_neg hsame] at hkeq
      rw [← hkeq] at hid
      exact absurd hid hsame

/-- Witness for c4_attach_assertion_fields: a concrete account-key assertion
attached to keypair 7. -/
theorem c4_attach_assertion_fields_witness :
    (KeypairAssertionHandler (some ⟨"admin"⟩) (.ok ⟨7, "QQ=="⟩)
        (fun _ => .ok "assert-text")
        (fun _ => .ok ⟨"account-key",
          fun h => if h = "account-id" then "acme"
            else if h = "public-key-sha3-384" then "sha384" else ""⟩)
        (fun _ _ => true)
        ⟨[⟨7, "old", "oldkey", "s", "", false⟩], [], [], []⟩).response.success
      = true :=
  ((c4_attach_assertion_fields ⟨"admin"⟩ ⟨7, "QQ=="⟩ (fun _ => .ok "assert-text")
      (fun _ => .ok ⟨"account-key",
        fun h => if h = "account-id" then "acme"
          else if h = "public-key-sha3-384" then "sha384" else ""⟩)
      (fun _ _ => true) ⟨[⟨7, "old", "oldkey", "s", "", false⟩], [], [], []⟩
      "assert-text" ⟨"account-key",
        fun h => if h = "account-id" then "acme"
          else if h = "public-key-sha3-384" then "sha384" else ""⟩
      (by decide) rfl rfl rfl).2 rfl rfl).1

/-- C1 counterexample: with a Generating tracker entry for (acme, prod-key)
already present, a second authorized generate request for the same pair is not
rejected: the handler answers 202 with success true (no AlreadyInProgressError)
and spawns another background GenerateKeypair worker. -/
theorem c1_second_generate_not_rejected :
    GetKeypairStatus ⟨[], [⟨"acme", "prod-key", "generating"⟩], [], []⟩ "acme" "prod-key"
      = some ⟨"acme", "prod-key", "generating"⟩ ∧
    KeypairGenerateHandler (some ⟨"admin"⟩) (.ok ⟨0, "acme", "", "prod-key"⟩)
        (fun _ _ => true) ⟨[], [⟨"acme", "prod-key", "generating"⟩], [], []⟩
      = ⟨⟨202, true, "", "", "/v1/keypairs/status/acme/prod-key"⟩,
          ⟨[], [⟨"acme", "prod-key", "generating"⟩], [], []⟩,
          [("acme", "", "prod-key")]⟩ :=
  ⟨rfl, rfl⟩

/-- C1 amended: KeypairGenerateHandler accepts every authorized generate request
unconditionally, whatever the tracker state: it returns 202 success with the
status URL, leaves the database untouched, and always spawns one background
GenerateKeypair worker; no AlreadyInProgressError rejection exists at the request
level. -/
theorem c1_generate_always_accepts (user : User) (kp : KeypairWithPrivateKey)
    (inAccount : String → String → Bool) (st : DBState)
    (h1 : trimSpace kp.authorityID ≠ "")
    (h2 : inAccount user.username (trimSpace kp.authorityID) = true) :
    KeypairGenerateHandler (some user) (.ok kp) inAccount st =
      ⟨⟨202, true, "", "",
          "/v1/keypairs/status/" ++ trimSpace kp.authorityID ++ "/" ++ kp.keyName⟩,
        st, [(trimSpace kp.authorityID, "", kp.keyName)]⟩ := by
  simp [KeypairGenerateHandler, verifyKeypair, h1, h2]

/-- Witness for c1_generate_always_accepts on a state whose tracker already holds
a Generating entry for the requested pair. -/
theorem c1_generate_always_accepts_witness :
    KeypairGenerateHandler (some ⟨"operator"⟩) (.ok ⟨0, "brandco", "", "key-two"⟩)
        (fun _ _ => true) ⟨[], [⟨"brandco", "key-two", "generating"⟩], [], []⟩
      = ⟨⟨202, true, "", "", "/v1/keypairs/status/brandco/key-two"⟩,
          ⟨[], [⟨"brandco", "key-two", "generating"⟩], [], []⟩,
          [("brandco", "", "key-two")]⟩ :=
  c1_generate_always_accepts ⟨"operator"⟩ ⟨0, "brandco", "", "key-two"⟩
    (fun _ _ => true) ⟨[], [⟨"brandco", "key-two", "generating"⟩], [], []⟩
    (by decide) rfl

/-- C2 counterexample: an accepted generate request for (widgetco, main-key) on an
empty store returns success, yet creates no tracker entry before returning: the
post-state is unchanged and an immediate status poll reports the not-found
error. -/
theorem c2_poll_after_accept_not_found :
    (KeypairGenerateHandler (some ⟨"admin"⟩) (.ok ⟨0, "widgetco", "", "main-key"⟩)
        (fun _ _ => true) ⟨[], [], [], []⟩).response.success = true ∧
    (KeypairGenerateHandler (some ⟨"admin"⟩) (.ok ⟨0, "widgetco", "", "main-key"⟩)
        (fun _ _ => true) ⟨[], [], [], []⟩).state = ⟨[], [], [], []⟩ ∧
    KeypairStatusHandler (some ⟨"admin"⟩) (fun _ _ => true) "widgetco" "main-key"
        (KeypairGenerateHandler (some ⟨"admin"⟩) (.ok ⟨0, "widgetco", "", "main-key"⟩)
          (fun _ _ => true) ⟨[], [], [], []⟩).state
      = ⟨400, false, "error-keypair-json", "", "Cannot find the status of the keypair"⟩ :=
  ⟨rfl, rfl, rfl⟩

/-- C2 amended: the generate handler writes nothing to the database synchronously
(the tracker entry is created later, inside the spawned GenerateKeypair worker),
so a status poll that arrives after the request returns but before the worker has
created the entry reports the not-found error. -/
theorem c2_tracker_created_asynchronously (authUser : Option User)
    (body : BodyResult KeypairWithPrivateKey) (inAccount : String → String → Bool)
    (st : DBState) (user : User) (authorityID keyName : String)
    (hin : inAccount user.username authorityID = true)
    (hnone : GetKeypairStatus st authorityID keyName = none) :
    (KeypairGenerateHandler authUser body inAccount st).state = st ∧
    KeypairStatusHandler (some user) inAccount authorityID keyName
        (KeypairGenerateHandler authUser body inAccount st).state
      = ⟨400, false, "error-keypair-json", "", "Cannot find the status of the keypair"⟩ := by
  have hstate : (KeypairGenerateHandler authUser body inAccount st).state = st := by
    unfold KeypairGenerateHandler
    cases hv : verifyKeypair authUser body inAccount with
    | error r => rfl
    | ok p => rfl
  refine ⟨hstate, ?_⟩
  rw [hstate]
  simp [KeypairStatusHandler, hin, hnone]

/-- Witness for c2_tracker_created_asynchronously at a concrete accepted request
and an empty tracker. -/
theorem c2_tracker_created_asynchronously_witness :
    (KeypairGenerateHandler (some ⟨"operator"⟩) (.ok ⟨0, "widgetco", "", "main-key"⟩)
        (fun _ _ => true) ⟨[], [], [], []⟩).state = ⟨[], [], [], []⟩ ∧
    KeypairStatusHandler (some ⟨"operator"⟩) (fun _ _ => true) "widgetco" "main-key"
        (KeypairGenerateHandler (some ⟨"operator"⟩) (.ok ⟨0, "widgetco", "", "main-key"⟩)
          (fun _ _ => true) ⟨[], [], [], []⟩).state
      = ⟨400, false, "error-keypair-json", "", "Cannot find the status of the keypair"⟩ :=
  c2_tracker_created_asynchronously (some ⟨"operator"⟩)
    (.ok ⟨0, "widgetco", "", "main-key"⟩) (fun _ _ => true) ⟨[], [], [], []⟩
    ⟨"operator"⟩ "widgetco" "main-key" rfl rfl

/-- C3 counterexample: attaching a correctly decoded assertion whose declared type
is model produces the fixed message naming only the expected type account-key; the
actual type name model does not occur in the message (and the keypair is left
unchanged), refuting that the error carries both type names. -/
theorem c3_wrong_type_message_lacks_actual :
    (KeypairAssertionHandler (some ⟨"admin"⟩) (.ok ⟨7, "Zm9v"⟩) (fun _ => .ok "foo")
        (fun _ => .ok ⟨"model", fun _ => ""⟩) (fun _ _ => true)
        ⟨[⟨7, "a", "k", "s", "", false⟩], [], [], []⟩).response.message
      = "An assertion of type " ++ sq accountKeyTypeName ++ " is required" ∧
    containsSeq "model".toList
      ((KeypairAssertionHandler (some ⟨"admin"⟩) (.ok ⟨7, "Zm9v"⟩) (fun _ => .ok "foo")
        (fun _ => .ok ⟨"model", fun _ => ""⟩) (fun _ _ => true)
        ⟨[⟨7, "a", "k", "s", "", false⟩], [], [], []⟩).response.message).toList = false ∧
    (KeypairAssertionHandler (some ⟨"admin"⟩) (.ok ⟨7, "Zm9v"⟩) (fun _ => .ok "foo")
        (fun _ => .ok ⟨"model", fun _ => ""⟩) (fun _ _ => true)
        ⟨[⟨7, "a", "k", "s", "", false⟩], [], [], []⟩).state
      = ⟨[⟨7, "a", "k", "s", "", false⟩], [], [], []⟩ :=
  ⟨rfl, by decide, rfl⟩

/-- C3 amended: a correctly decoded assertion of a non-account-key type is
rejected with 400 invalid-assertion and the keypair is not updated, but the error
message is the fixed text naming only the expected type account-key — it is
independent of the submitted assertion's actual type name. -/
theorem c3_wrong_type_rejected (user : User) (req : AssertionRequest)
    (b64 : String → Except String String) (dec : String → Except String Assertion)
    (inAccount : String → String → Bool) (st : DBState) (decoded : String)
    (a : Assertion)
    (h0 : req.id ≠ 0) (h1 : b64 req.assertion = .ok decoded)
    (h2 : dec decoded = .ok a) (h3 : a.typeName ≠ accountKeyTypeName) :
    KeypairAssertionHandler (some user) (.ok req) b64 dec inAccount st =
      ⟨⟨400, false, "invalid-assertion", "",
        "An assertion of type " ++ sq accountKeyTypeName ++ " is required"⟩, st⟩ := by
  simp [KeypairAssertionHandler, h0, h1, h2, h3]

/-- Witness for c3_wrong_type_rejected on a decoded serial assertion. -/
theorem c3_wrong_type_rejected_witness :
    KeypairAssertionHandler (some ⟨"operator"⟩) (.ok ⟨9, "c2VyaWFs"⟩)
        (fun _ => .ok "serial-text") (fun _ => .ok ⟨"serial", fun _ => ""⟩)
        (fun _ _ => true) ⟨[⟨9, "a", "k", "s", "", false⟩], [], [], []⟩
      = ⟨⟨400, false, "invalid-assertion", "",
          "An assertion of type " ++ sq accountKeyTypeName ++ " is required"⟩,
          ⟨[⟨9, "a", "k", "s", "", false⟩], [], [], []⟩⟩ :=
  c3_wrong_type_rejected ⟨"operator"⟩ ⟨9, "c2VyaWFs"⟩ (fun _ => .ok "serial-text")
    (fun _ => .ok ⟨"serial", fun _ => ""⟩) (fun _ _ => true)
    ⟨[⟨9, "a", "k", "s", "", false⟩], [], [], []⟩ "serial-text"
    ⟨"serial", fun _ => ""⟩ (by decide) rfl rfl (by decide)

/-- C5: the signing-log list handler performs no requester scoping: it
authenticates no user and calls the listing with only fromID, so on a store
holding an entry of authority acme the full entry is returned regardless of who
asks — here evaluated at the failing input, a log with one acme entry and no
notion of a permitted requester. -/
theorem c5_signing_log_unscoped :
    SigningLogHandler "" ⟨[], [], [⟨1, "acme", "m1", "sn1", "fp1"⟩], []⟩
      = ⟨200, true, "", "", "", [⟨1, "acme", "m1", "sn1", "fp1"⟩]⟩ := by
  decide

end SerialVault
